import Mathlib

/-!
Verification of the flight-planner specification against a shallow
embedding of `src/flight_planner.py`.

Modelling conventions:
* Python floats/ints are modelled by exact rationals (`ℚ`).
* A Python dictionary with a fixed set of keys is modelled by a structure
  whose fields are `Option`-valued; a missing key is `none`.
* Two-element sequences are modelled by `Vec2`; the flag `np` records
  whether the value is a numpy array (elementwise arithmetic) or a plain
  Python tuple/list (for which `float * seq` raises `TypeError`).
* A Python method that mutates `self` and may raise is modelled as a
  function into `PyResult σ`: `.ok s` is normal return with the mutated
  state `s`; `.err e s` is an exception `e` propagating with the state `s`
  as already mutated at the raise point (Python mutations survive an
  exception).
-/

namespace FlightPlannerPy

/-- Python runtime errors that the embedded code can raise, together with
the typed error `InvalidCameraParameterError` named by the specification's
error taxonomy.  Modelled from the spec: the source defines no such error
class, so no embedded operation ever produces that constructor; it exists
only so that statements about it can be written. -/
inductive PyErr : Type
  | typeError
  | zeroDivisionError
  | attributeError
  | valueError
  | invalidCameraParameterError
  deriving DecidableEq, Repr

/-- Result of running a state-mutating Python method: normal return, or an
exception carrying the state as mutated up to the raise point. -/
inductive PyResult (α : Type) : Type
  | ok (a : α)
  | err (e : PyErr) (a : α)
  deriving DecidableEq, Repr

/-- The state after the call, whether or not an exception escaped. -/
def PyResult.state {α : Type} : PyResult α → α
  | .ok a => a
  | .err _ a => a

/-- Did the call return normally? -/
def PyResult.isOk {α : Type} : PyResult α → Bool
  | .ok _ => true
  | .err _ _ => false

/-- Sequencing of statements: an exception short-circuits. -/
def PyResult.bind {α : Type} : PyResult α → (α → PyResult α) → PyResult α
  | .ok a, f => f a
  | .err e a, _ => .err e a

@[simp] theorem PyResult.bind_ok {α : Type} (a : α) (f : α → PyResult α) :
    (PyResult.ok a).bind f = f a := rfl

@[simp] theorem PyResult.bind_err {α : Type} (e : PyErr) (a : α) (f : α → PyResult α) :
    (PyResult.err e a).bind f = .err e a := rfl

@[simp] theorem PyResult.state_ok {α : Type} (a : α) : (PyResult.ok a).state = a := rfl

@[simp] theorem PyResult.state_err {α : Type} (e : PyErr) (a : α) :
    (PyResult.err e a).state = a := rfl

@[simp] theorem PyResult.isOk_ok {α : Type} (a : α) : (PyResult.ok a).isOk = true := rfl

@[simp] theorem PyResult.isOk_err {α : Type} (e : PyErr) (a : α) :
    (PyResult.err e a).isOk = false := rfl

/-- A two-element numeric sequence; `np = true` means a numpy array
(supporting elementwise scalar multiplication), `np = false` a plain
Python tuple or list (for which `float * seq` raises `TypeError`). -/
structure Vec2 : Type where
  x : ℚ
  y : ℚ
  np : Bool
  deriving DecidableEq, Repr

/-- The `Camera._parameters` dictionary, restricted to the keys the code
reads or writes: `f`, `pixel_size`, `image_size`, `sensor_size`,
`max_fps`, `fps`, `exposure`.  (`fov`, `dfov`, `name` are stored but never
used in any computation.) -/
structure Camera : Type where
  f : Option ℚ
  pixel_size : Option ℚ
  image_size : Option Vec2
  sensor_size : Option Vec2
  max_fps : Option ℚ
  fps : Option ℚ
  exposure : Option ℚ
  deriving DecidableEq, Repr

/-- `Camera.__init__`: stores the kwargs, and when `sensor_size` is absent
derives it as `pixel_size * np.array(image_size)`.
If the supplied `sensor_size` is a numpy array, the test
`self._parameters.get('sensor_size') == None` yields an elementwise bool
array whose truth value is ambiguous (`ValueError`).  If `pixel_size` or
`image_size` is missing, the derivation multiplies by `None`
(`TypeError`). -/
def mkCamera (kwargs : Camera) : PyResult Camera :=
  match kwargs.sensor_size with
  | some v =>
      if v.np then .err .valueError kwargs
      else .ok kwargs
  | none =>
      match kwargs.pixel_size, kwargs.image_size with
      | some ps, some iv =>
          .ok { kwargs with sensor_size := some ⟨ps * iv.x, ps * iv.y, true⟩ }
      | _, _ => .err .typeError kwargs

/-- The `fps` property setter (declared with `@max_fps.setter` but named
`fps`): stores its argument under the key `'fps'`. -/
def Camera.setFps (c : Camera) (v : ℚ) : Camera :=
  { c with fps := some v }

/-- The `exposure` property setter.  The condition
`(fps != None) & (exposure < 1/fps)` uses the non-short-circuiting `&`,
so `1/fps` is evaluated even when `fps` is `None` (`TypeError`) and when
`fps == 0` (`ZeroDivisionError`).  When the guard rejects, the code prints
a warning — the returned `Bool` records whether it printed — but the final
unconditional statement `self._parameters['exposure'] = exposure` stores
the value in every non-raising path. -/
def Camera.setExposure (c : Camera) (exposure : ℚ) : PyResult (Camera × Bool) :=
  match c.max_fps with
  | none => .err .typeError (c, false)
  | some fps =>
      if fps = 0 then .err .zeroDivisionError (c, false)
      else if exposure < 1 / fps then
        .ok ({ c with exposure := some exposure }, false)
      else
        .ok ({ c with exposure := some exposure }, true)

/-- The `FlightPlanner` object: its camera and its `_plan` dictionary,
restricted to the keys the code reads or writes. -/
structure Planner : Type where
  cam : Camera
  height : Option ℚ
  gsd : Option ℚ
  forward_overlap : Option ℚ
  side_overlap : Option ℚ
  photo_scale : Option ℚ
  swath : Option Vec2
  base_length : Option ℚ
  strip_offset : Option ℚ
  ground_area : Option ℚ
  deriving DecidableEq, Repr

/-- `FlightPlanner.scale_from_height`:
`m = h/(f/1000)` (`TypeError` on missing `f`, `ZeroDivisionError` on
`f == 0`), store `photo_scale`, then `S = photo_scale * sensor_size`
(`TypeError` on missing or non-array `sensor_size` — note `photo_scale`
has already been stored at that point), store `swath`. -/
def scale_from_height (p : Planner) (h : ℚ) : PyResult Planner :=
  match p.cam.f with
  | none => .err .typeError p
  | some f =>
      if f = 0 then .err .zeroDivisionError p
      else
        let m := h / (f / 1000)
        let p1 := { p with photo_scale := some m }
        match p1.cam.sensor_size with
        | none => .err .typeError p1
        | some sv =>
            if sv.np then .ok { p1 with swath := some ⟨m * sv.x, m * sv.y, true⟩ }
            else .err .typeError p1

/-- `FlightPlanner.scale_from_gsd`:
`S = (gsd/100)*image_size` — `gsd/100` is a float, so a tuple/list
`image_size` raises `TypeError`; then `m = S[0]/sensor_size[0]`
(`TypeError` on missing `sensor_size`; a zero first sensor dimension is
modelled as `ZeroDivisionError` — no theorem below depends on that case);
store `photo_scale` and `swath`. -/
def scale_from_gsd (p : Planner) (gsd : ℚ) : PyResult Planner :=
  match p.cam.image_size with
  | none => .err .typeError p
  | some iv =>
      if iv.np then
        let S : Vec2 := ⟨gsd / 100 * iv.x, gsd / 100 * iv.y, true⟩
        match p.cam.sensor_size with
        | none => .err .typeError p
        | some sv =>
            if sv.x = 0 then .err .zeroDivisionError p
            else
              let m := S.x / sv.x
              .ok { p with photo_scale := some m, swath := some S }
      else .err .typeError p

/-- `FlightPlanner.calculate_gsd`:
`S = photo_scale * sensor_size[0]` (`TypeError` when either is missing),
`gsd = 100*S/image_size[0]` (`TypeError` on missing `image_size`; a zero
first image dimension is modelled as `ZeroDivisionError` — no theorem
below depends on that case), store `gsd`. -/
def calculate_gsd (p : Planner) : PyResult Planner :=
  match p.photo_scale, p.cam.sensor_size with
  | some m, some sv =>
      let S := m * sv.x
      match p.cam.image_size with
      | none => .err .typeError p
      | some iv =>
          if iv.x = 0 then .err .zeroDivisionError p
          else .ok { p with gsd := some (100 * S / iv.x) }
  | _, _ => .err .typeError p

/-- `FlightPlanner.calculate_height`:
`h = photo_scale * focal_length/1000` (`TypeError` when either is
missing), store `height`.  The `gsd` argument is unused, as in the
source. -/
def calculate_height (p : Planner) (gsd : ℚ) : PyResult Planner :=
  match p.photo_scale, p.cam.f with
  | some m, some f => .ok { p with height := some (m * f / 1000) }
  | _, _ => .err .typeError p

/-- `FlightPlanner.calculate_base`:
`B = swath[1] * (1 - forward_overlap/100)` (`TypeError` when either is
missing), store `base_length`. -/
def calculate_base (p : Planner) : PyResult Planner :=
  match p.swath, p.forward_overlap with
  | some sw, some fo => .ok { p with base_length := some (sw.y * (1 - fo / 100)) }
  | _, _ => .err .typeError p

/-- `FlightPlanner.calculate_strip_offset`:
`A = swath[0] * (1 - side_overlap/100)` (`TypeError` when either is
missing), store `strip_offset`. -/
def calculate_strip_offset (p : Planner) : PyResult Planner :=
  match p.swath, p.side_overlap with
  | some sw, some so => .ok { p with strip_offset := some (sw.x * (1 - so / 100)) }
  | _, _ => .err .typeError p

/-- `FlightPlanner.calculate_photo_area`:
`area = swath[0] * swath[1]` (`TypeError` on missing `swath`), store
`ground_area`. -/
def calculate_photo_area (p : Planner) : PyResult Planner :=
  match p.swath with
  | some sw => .ok { p with ground_area := some (sw.x * sw.y) }
  | none => .err .typeError p

/-- The unconditional tail of `FlightPlanner.compute`:
`calculate_base(); calculate_strip_offset(); calculate_photo_area()`. -/
def computeTail (p : Planner) : PyResult Planner :=
  ((calculate_base p).bind calculate_strip_offset).bind calculate_photo_area

/-- The opening statements of `FlightPlanner.compute`: fill a missing
`forward_overlap` with 60 and a missing `side_overlap` with 40. -/
def fillOverlaps (p0 : Planner) : Planner :=
  let p1 := if p0.forward_overlap = none then { p0 with forward_overlap := some 60 } else p0
  if p1.side_overlap = none then { p1 with side_overlap := some 40 } else p1

/-- `FlightPlanner.compute`: fill the missing overlaps, then branch on
which of `height`/`gsd` is known.  The neither-known branch sets a local
`h = 120` and calls `self.gsd_from_height(h)` — no such method exists on
the class, so it raises `AttributeError` without storing the height.  The
both-known branch is `pass`.  Finally compute base length, strip offset
and ground area. -/
def compute (p0 : Planner) : PyResult Planner :=
  let p := fillOverlaps p0
  match p.height, p.gsd with
  | none, none => .err .attributeError p
  | none, some gsd => ((scale_from_gsd p gsd).bind (fun q => calculate_height q gsd)).bind computeTail
  | some h, none => ((scale_from_height p h).bind calculate_gsd).bind computeTail
  | some _, some _ => computeTail p

/-- The `height` property setter: store the new height, then `compute()`. -/
def setHeight (p : Planner) (h : ℚ) : PyResult Planner :=
  compute { p with height := some h }

/-- The `gsd` property setter: store the new gsd, then `compute()`. -/
def setGsd (p : Planner) (gsd : ℚ) : PyResult Planner :=
  compute { p with gsd := some gsd }

/-- The `forward_overlap` property setter: store, then `compute()`. -/
def setForwardOverlap (p : Planner) (fo : ℚ) : PyResult Planner :=
  compute { p with forward_overlap := some fo }

/-- The `side_overlap` property setter: store, then `compute()`. -/
def setSideOverlap (p : Planner) (so : ℚ) : PyResult Planner :=
  compute { p with side_overlap := some so }

/-- The round-trip pipeline of spec §8: `scale_from_height(height)`, then
`calculate_gsd()`, then `scale_from_gsd` with the resulting gsd, then
`calculate_height`. -/
def roundTrip (p : Planner) (h : ℚ) : PyResult Planner :=
  (scale_from_height p h).bind fun p1 =>
    (calculate_gsd p1).bind fun p2 =>
      match p2.gsd with
      | some g => (scale_from_gsd p2 g).bind fun p3 => calculate_height p3 g
      | none => .err .typeError p2

/-- Constructor kwargs of a simple camera: `f = 1000`, `pixel_size = 2`,
`image_size = (3, 4)` as a Python tuple, no explicit `sensor_size`. -/
def kw1 : Camera :=
  { f := some 1000, pixel_size := some 2, image_size := some ⟨3, 4, false⟩,
    sensor_size := none, max_fps := none, fps := none, exposure := none }

/-- The camera built from `kw1`; its `sensor_size` is the derived numpy
array `(6, 8)` (see `mkCamera_kw1`). -/
def cam1 : Camera :=
  { f := some 1000, pixel_size := some 2, image_size := some ⟨3, 4, false⟩,
    sensor_size := some ⟨6, 8, true⟩, max_fps := none, fps := none, exposure := none }

/-- A fresh `FlightPlanner(cam1, height = 1)`. -/
def plannerH1 : Planner :=
  { cam := cam1, height := some 1, gsd := none, forward_overlap := none,
    side_overlap := none, photo_scale := none, swath := none,
    base_length := none, strip_offset := none, ground_area := none }

/-- The plan state after `plannerH1.compute()` succeeds (see
`compute_plannerH1`). -/
def computed1 : Planner :=
  { cam := cam1, height := some 1, gsd := some 200, forward_overlap := some 60,
    side_overlap := some 40, photo_scale := some 1, swath := some ⟨6, 8, true⟩,
    base_length := some (16 / 5), strip_offset := some (18 / 5), ground_area := some 48 }

/-- Constructor kwargs of a camera with `max_fps = 1` and an explicitly
supplied tuple `sensor_size` (so construction keeps it as given). -/
def kwFps : Camera :=
  { f := none, pixel_size := none, image_size := none,
    sensor_size := some ⟨1, 1, false⟩, max_fps := some 1, fps := none, exposure := none }

/-- The camera built from `kwFps` (construction keeps the kwargs
unchanged; see `mkCamera_kwFps`). -/
def camFps : Camera := kwFps

/-- Constructor kwargs of a camera whose `sensor_size` is supplied as a
Python tuple `(6, 8)`. -/
def kwTupleSensor : Camera :=
  { f := some 1000, pixel_size := none, image_size := some ⟨3, 4, false⟩,
    sensor_size := some ⟨6, 8, false⟩, max_fps := none, fps := none, exposure := none }

/-- The camera built from `kwTupleSensor` (construction keeps the kwargs
unchanged; see `mkCamera_kwTupleSensor`). -/
def camTupleSensor : Camera := kwTupleSensor

/-- `FlightPlanner(camTupleSensor, height = 10)`. -/
def plannerTupleSensor : Planner :=
  { cam := camTupleSensor, height := some 10, gsd := none, forward_overlap := none,
    side_overlap := none, photo_scale := none, swath := none,
    base_length := none, strip_offset := none, ground_area := none }

/-- Constructor kwargs of a camera with zero focal length. -/
def kwZeroF : Camera :=
  { f := some 0, pixel_size := some 2, image_size := some ⟨3, 4, false⟩,
    sensor_size := none, max_fps := none, fps := none, exposure := none }

/-- The camera built from `kwZeroF` (see `mkCamera_kwZeroF`). -/
def camZeroF : Camera :=
  { f := some 0, pixel_size := some 2, image_size := some ⟨3, 4, false⟩,
    sensor_size := some ⟨6, 8, true⟩, max_fps := none, fps := none, exposure := none }

/-- `FlightPlanner(camZeroF)` with no plan inputs. -/
def plannerZeroF : Planner :=
  { cam := camZeroF, height := none, gsd := none, forward_overlap := none,
    side_overlap := none, photo_scale := none, swath := none,
    base_length := none, strip_offset := none, ground_area := none }

/-- Constructor kwargs of a camera like `kw1` but whose `image_size` is a
numpy array. -/
def kwNpImage : Camera :=
  { f := some 1000, pixel_size := some 2, image_size := some ⟨3, 4, true⟩,
    sensor_size := none, max_fps := none, fps := none, exposure := none }

/-- The camera built from `kwNpImage` (see `mkCamera_kwNpImage`). -/
def camNpImage : Camera :=
  { f := some 1000, pixel_size := some 2, image_size := some ⟨3, 4, true⟩,
    sensor_size := some ⟨6, 8, true⟩, max_fps := none, fps := none, exposure := none }

/-- `FlightPlanner(camNpImage)` with no plan inputs. -/
def plannerNpImage : Planner :=
  { cam := camNpImage, height := none, gsd := none, forward_overlap := none,
    side_overlap := none, photo_scale := none, swath := none,
    base_length := none, strip_offset := none, ground_area := none }

/-- `FlightPlanner(cam1)` with no plan inputs at all. -/
def plannerEmpty : Planner :=
  { cam := cam1, height := none, gsd := none, forward_overlap := none,
    side_overlap := none, photo_scale := none, swath := none,
    base_length := none, strip_offset := none, ground_area := none }

/-! ### Helper lemmas -/

theorem mkCamera_kw1 : mkCamera kw1 = .ok cam1 := by
  norm_num [mkCamera, kw1, cam1]

theorem mkCamera_kwFps : mkCamera kwFps = .ok camFps := by
  norm_num [mkCamera, kwFps, camFps]

theorem mkCamera_kwTupleSensor : mkCamera kwTupleSensor = .ok camTupleSensor := by
  norm_num [mkCamera, kwTupleSensor, camTupleSensor]

theorem mkCamera_kwZeroF : mkCamera kwZeroF = .ok camZeroF := by
  norm_num [mkCamera, kwZeroF, camZeroF]

theorem mkCamera_kwNpImage : mkCamera kwNpImage = .ok camNpImage := by
  norm_num [mkCamera, kwNpImage, camNpImage]

theorem compute_plannerH1 : compute plannerH1 = .ok computed1 := by
  norm_num [plannerH1, cam1, computed1, compute, fillOverlaps, scale_from_height,
    calculate_gsd, computeTail, calculate_base, calculate_strip_offset,
    calculate_photo_area, PyResult.bind]

theorem bind_eq_ok {x : PyResult Planner} {f : Planner → PyResult Planner} {q : Planner}
    (h : x.bind f = .ok q) : ∃ a, x = .ok a ∧ f a = .ok q := by
  cases x with
  | ok a => exact ⟨a, rfl, h⟩
  | err e a => exact (PyResult.noConfusion h)

theorem fillOverlaps_height (p : Planner) : (fillOverlaps p).height = p.height := by
  simp only [fillOverlaps]
  repeat' split
  all_goals rfl

theorem fillOverlaps_gsd (p : Planner) : (fillOverlaps p).gsd = p.gsd := by
  simp only [fillOverlaps]
  repeat' split
  all_goals rfl

theorem fillOverlaps_fo (p : Planner) :
    (fillOverlaps p).forward_overlap = some (p.forward_overlap.getD 60) := by
  unfold fillOverlaps
  rcases hfo : p.forward_overlap with _ | fo <;> rcases hso : p.side_overlap with _ | so <;>
    simp [hfo, hso]

theorem fillOverlaps_so (p : Planner) :
    (fillOverlaps p).side_overlap = some (p.side_overlap.getD 40) := by
  unfold fillOverlaps
  rcases hfo : p.forward_overlap with _ | fo <;> rcases hso : p.side_overlap with _ | so <;>
    simp [hfo, hso]

theorem fillOverlaps_eq_self {p : Planner} (hfo : p.forward_overlap ≠ none)
    (hso : p.side_overlap ≠ none) : fillOverlaps p = p := by
  unfold fillOverlaps
  simp [hfo, hso]

theorem fillOverlaps_photo_scale (p : Planner) :
    (fillOverlaps p).photo_scale = p.photo_scale := by
  simp only [fillOverlaps]
  repeat' split
  all_goals rfl

theorem fillOverlaps_swath (p : Planner) : (fillOverlaps p).swath = p.swath := by
  simp only [fillOverlaps]
  repeat' split
  all_goals rfl

theorem fillOverlaps_base (p : Planner) : (fillOverlaps p).base_length = p.base_length := by
  simp only [fillOverlaps]
  repeat' split
  all_goals rfl

theorem fillOverlaps_strip (p : Planner) : (fillOverlaps p).strip_offset = p.strip_offset := by
  simp only [fillOverlaps]
  repeat' split
  all_goals rfl

theorem fillOverlaps_area (p : Planner) : (fillOverlaps p).ground_area = p.ground_area := by
  simp only [fillOverlaps]
  repeat' split
  all_goals rfl

/-- A function on planner states that never changes the two overlap
fields, exception or not. -/
def PreservesOverlaps (f : Planner → PyResult Planner) : Prop :=
  ∀ p : Planner, (f p).state.forward_overlap = p.forward_overlap ∧
    (f p).state.side_overlap = p.side_overlap

theorem preservesOverlaps_bind {f g : Planner → PyResult Planner}
    (hf : PreservesOverlaps f) (hg : PreservesOverlaps g) :
    PreservesOverlaps (fun p => (f p).bind g) := by
  intro p
  have h1 := hf p
  cases hfp : f p with
  | ok a =>
      rw [hfp] at h1
      simp only [PyResult.state_ok] at h1
      have h2 := hg a
      simp only [hfp, PyResult.bind_ok]
      exact ⟨h2.1.trans h1.1, h2.2.trans h1.2⟩
  | err e a =>
      rw [hfp] at h1
      simp only [PyResult.state_err] at h1
      simp only [hfp, PyResult.bind_err, PyResult.state_err]
      exact h1

theorem scale_from_height_overlaps (h : ℚ) :
    PreservesOverlaps (fun p => scale_from_height p h) := by
  intro p
  simp only []
  unfold scale_from_height
  cases hf : p.cam.f with
  | none => simp
  | some f =>
      by_cases h0 : f = 0
      · simp [h0]
      · simp only [h0, if_false]
        cases hs : p.cam.sensor_size with
        | none => simp
        | some sv => by_cases hnp : sv.np <;> simp [hnp]

theorem scale_from_gsd_overlaps (g : ℚ) :
    PreservesOverlaps (fun p => scale_from_gsd p g) := by
  intro p
  simp only []
  unfold scale_from_gsd
  cases hi : p.cam.image_size with
  | none => simp
  | some iv =>
      by_cases hnp : iv.np
      · simp only [hnp, if_true]
        cases hs : p.cam.sensor_size with
        | none => simp
        | some sv => by_cases hx : sv.x = 0 <;> simp [hx]
      · simp [hnp]

theorem calculate_gsd_overlaps : PreservesOverlaps calculate_gsd := by
  intro p
  unfold calculate_gsd
  cases hm : p.photo_scale with
  | none => simp
  | some m =>
      cases hs : p.cam.sensor_size with
      | none => simp
      | some sv =>
          cases hi : p.cam.image_size with
          | none => simp
          | some iv => by_cases hx : iv.x = 0 <;> simp [hx]

theorem calculate_height_overlaps (g : ℚ) :
    PreservesOverlaps (fun p => calculate_height p g) := by
  intro p
  simp only []
  unfold calculate_height
  cases hm : p.photo_scale with
  | none => simp
  | some m => cases hf : p.cam.f with
    | none => simp
    | some f => simp

theorem calculate_base_overlaps : PreservesOverlaps calculate_base := by
  intro p
  unfold calculate_base
  cases hs : p.swath with
  | none => simp
  | some sw => cases hfo : p.forward_overlap with
    | none => simp [hfo]
    | some fo => simp

theorem calculate_strip_offset_overlaps : PreservesOverlaps calculate_strip_offset := by
  intro p
  unfold calculate_strip_offset
  cases hs : p.swath with
  | none => simp
  | some sw => cases hso : p.side_overlap with
    | none => simp [hso]
    | some so => simp

theorem calculate_photo_area_overlaps : PreservesOverlaps calculate_photo_area := by
  intro p
  unfold calculate_photo_area
  cases hs : p.swath with
  | none => simp
  | some sw => simp

theorem computeTail_overlaps : PreservesOverlaps computeTail := by
  have h := preservesOverlaps_bind
    (preservesOverlaps_bind calculate_base_overlaps calculate_strip_offset_overlaps)
    calculate_photo_area_overlaps
  intro p
  exact h p

theorem scale_from_height_ok_proj {p q : Planner} {h : ℚ}
    (hok : scale_from_height p h = .ok q) : q.height = p.height ∧ q.gsd = p.gsd := by
  unfold scale_from_height at hok
  cases hf : p.cam.f with
  | none => simp only [hf] at hok; exact (PyResult.noConfusion hok)
  | some f =>
      simp only [hf] at hok
      by_cases h0 : f = 0
      · simp only [if_pos h0] at hok; exact (PyResult.noConfusion hok)
      · simp only [if_neg h0] at hok
        cases hs : p.cam.sensor_size with
        | none => simp only [hs] at hok; exact (PyResult.noConfusion hok)
        | some sv =>
            simp only [hs] at hok
            by_cases hnp : sv.np
            · simp only [hnp, if_true] at hok
              injection hok with hq
              subst hq
              exact ⟨rfl, rfl⟩
            · simp only [hnp, if_false] at hok
              exact (PyResult.noConfusion hok)

theorem scale_from_gsd_ok_proj {p q : Planner} {g : ℚ}
    (hok : scale_from_gsd p g = .ok q) : q.height = p.height ∧ q.gsd = p.gsd := by
  unfold scale_from_gsd at hok
  cases hi : p.cam.image_size with
  | none => simp only [hi] at hok; exact (PyResult.noConfusion hok)
  | some iv =>
      simp only [hi] at hok
      by_cases hnp : iv.np
      · simp only [hnp, if_true] at hok
        cases hs : p.cam.sensor_size with
        | none => simp only [hs] at hok; exact (PyResult.noConfusion hok)
        | some sv =>
            simp only [hs] at hok
            by_cases hx : sv.x = 0
            · simp only [if_pos hx] at hok; exact (PyResult.noConfusion hok)
            · simp only [if_neg hx] at hok
              injection hok with hq
              subst hq
              exact ⟨rfl, rfl⟩
      · simp only [hnp, if_false] at hok
        exact (PyResult.noConfusion hok)

theorem calculate_gsd_ok_proj {p q : Planner}
    (hok : calculate_gsd p = .ok q) :
    q.height = p.height ∧ ∃ v, q.gsd = some v := by
  unfold calculate_gsd at hok
  cases hm : p.photo_scale with
  | none => simp only [hm] at hok; exact (PyResult.noConfusion hok)
  | some m =>
      simp only [hm] at hok
      cases hs : p.cam.sensor_size with
      | none => simp only [hs] at hok; exact (PyResult.noConfusion hok)
      | some sv =>
          simp only [hs] at hok
          cases hi : p.cam.image_size with
          | none => simp only [hi] at hok; exact (PyResult.noConfusion hok)
          | some iv =>
              simp only [hi] at hok
              by_cases hx : iv.x = 0
              · simp only [if_pos hx] at hok; exact (PyResult.noConfusion hok)
              · simp only [if_neg hx] at hok
                injection hok with hq
                subst hq
                exact ⟨rfl, _, rfl⟩

theorem calculate_height_ok_proj {p q : Planner} {g : ℚ}
    (hok : calculate_height p g = .ok q) :
    q.gsd = p.gsd ∧ ∃ v, q.height = some v := by
  unfold calculate_height at hok
  cases hm : p.photo_scale with
  | none => simp only [hm] at hok; exact (PyResult.noConfusion hok)
  | some m =>
      simp only [hm] at hok
      cases hf : p.cam.f with
      | none => simp only [hf] at hok; exact (PyResult.noConfusion hok)
      | some f =>
          simp only [hf] at hok
          injection hok with hq
          subst hq
          exact ⟨rfl, _, rfl⟩

theorem calculate_base_eq_ok {p q : Planner} (h : calculate_base p = .ok q) :
    ∃ sw fo, p.swath = some sw ∧ p.forward_overlap = some fo ∧
      q = { p with base_length := some (sw.y * (1 - fo / 100)) } := by
  unfold calculate_base at h
  cases hs : p.swath with
  | none => simp only [hs] at h; exact (PyResult.noConfusion h)
  | some sw =>
      simp only [hs] at h
      cases hfo : p.forward_overlap with
      | none => simp only [hfo] at h; exact (PyResult.noConfusion h)
      | some fo =>
          simp only [hfo] at h
          injection h with hq
          exact ⟨sw, fo, rfl, rfl, hq.symm⟩

theorem calculate_strip_offset_eq_ok {p q : Planner} (h : calculate_strip_offset p = .ok q) :
    ∃ sw so, p.swath = some sw ∧ p.side_overlap = some so ∧
      q = { p with strip_offset := some (sw.x * (1 - so / 100)) } := by
  unfold calculate_strip_offset at h
  cases hs : p.swath with
  | none => simp only [hs] at h; exact (PyResult.noConfusion h)
  | some sw =>
      simp only [hs] at h
      cases hso : p.side_overlap with
      | none => simp only [hso] at h; exact (PyResult.noConfusion h)
      | some so =>
          simp only [hso] at h
          injection h with hq
          exact ⟨sw, so, rfl, rfl, hq.symm⟩

theorem calculate_photo_area_eq_ok {p q : Planner} (h : calculate_photo_area p = .ok q) :
    ∃ sw, p.swath = some sw ∧ q = { p with ground_area := some (sw.x * sw.y) } := by
  unfold calculate_photo_area at h
  cases hs : p.swath with
  | none => simp only [hs] at h; exact (PyResult.noConfusion h)
  | some sw =>
      simp only [hs] at h
      injection h with hq
      exact ⟨sw, rfl, hq.symm⟩

theorem computeTail_eq_ok {p q : Planner} (h : computeTail p = .ok q) :
    ∃ sw fo so, p.swath = some sw ∧ p.forward_overlap = some fo ∧ p.side_overlap = some so ∧
      q = { p with base_length := some (sw.y * (1 - fo / 100)),
                   strip_offset := some (sw.x * (1 - so / 100)),
                   ground_area := some (sw.x * sw.y) } := by
  unfold computeTail at h
  obtain ⟨c, hc, harea⟩ := bind_eq_ok h
  obtain ⟨b, hb, hstrip⟩ := bind_eq_ok hc
  obtain ⟨sw, fo, hsw, hfo, rfl⟩ := calculate_base_eq_ok hb
  obtain ⟨sw2, so, hsw2, hso, rfl⟩ := calculate_strip_offset_eq_ok hstrip
  obtain ⟨sw3, hsw3, rfl⟩ := calculate_photo_area_eq_ok harea
  have hsw2e : p.swath = some sw2 := hsw2
  have hsw3e : p.swath = some sw3 := hsw3
  have hso2 : p.side_overlap = some so := hso
  have e2 : sw = sw2 := Option.some.inj (hsw.symm.trans hsw2e)
  subst e2
  have e3 : sw = sw3 := Option.some.inj (hsw.symm.trans hsw3e)
  subst e3
  exact ⟨sw, fo, so, hsw, hfo, hso2, rfl⟩

theorem computeTail_fix {p q : Planner} (h : computeTail p = .ok q) :
    computeTail q = .ok q := by
  obtain ⟨sw, fo, so, hsw, hfo, hso, rfl⟩ := computeTail_eq_ok h
  unfold computeTail calculate_base calculate_strip_offset calculate_photo_area
  simp [hsw, hfo, hso]

theorem compute_of_resolved {q : Planner} {hv gv : ℚ}
    (hqh : q.height = some hv) (hqg : q.gsd = some gv)
    (hqfo : q.forward_overlap ≠ none) (hqso : q.side_overlap ≠ none)
    (hfix : computeTail q = .ok q) : compute q = .ok q := by
  simp only [compute]
  rw [fillOverlaps_eq_self hqfo hqso]
  simp only [hqh, hqg]
  exact hfix

theorem compute_ok_fix {p q : Planner} (h : compute p = .ok q) : compute q = .ok q := by
  simp only [compute] at h
  cases hh : (fillOverlaps p).height with
  | none =>
      cases hg : (fillOverlaps p).gsd with
      | none => simp only [hh, hg] at h; exact (PyResult.noConfusion h)
      | some gv =>
          simp only [hh, hg] at h
          obtain ⟨p2, h12, htail⟩ := bind_eq_ok h
          obtain ⟨p1a, hsg, hch⟩ := bind_eq_ok h12
          have hsgp := scale_from_gsd_ok_proj hsg
          obtain ⟨hgsd1, v, hht⟩ := calculate_height_ok_proj hch
          obtain ⟨sw, fo, so, hsw, hfo, hso, hqform⟩ := computeTail_eq_ok htail
          have hqh : q.height = some v := by rw [hqform]; exact hht
          have hqg : q.gsd = some gv := by rw [hqform]; exact hgsd1.trans (hsgp.2.trans hg)
          have hqfo2 : q.forward_overlap = some fo := by rw [hqform]; exact hfo
          have hqso2 : q.side_overlap = some so := by rw [hqform]; exact hso
          exact compute_of_resolved hqh hqg (by simp [hqfo2]) (by simp [hqso2])
            (computeTail_fix htail)
  | some hv =>
      cases hg : (fillOverlaps p).gsd with
      | none =>
          simp only [hh, hg] at h
          obtain ⟨p2, h12, htail⟩ := bind_eq_ok h
          obtain ⟨p1a, hsh, hcg⟩ := bind_eq_ok h12
          have hshp := scale_from_height_ok_proj hsh
          obtain ⟨hh2, v, hg2⟩ := calculate_gsd_ok_proj hcg
          obtain ⟨sw, fo, so, hsw, hfo, hso, hqform⟩ := computeTail_eq_ok htail
          have hqh : q.height = some hv := by rw [hqform]; exact hh2.trans (hshp.1.trans hh)
          have hqg : q.gsd = some v := by rw [hqform]; exact hg2
          have hqfo2 : q.forward_overlap = some fo := by rw [hqform]; exact hfo
          have hqso2 : q.side_overlap = some so := by rw [hqform]; exact hso
          exact compute_of_resolved hqh hqg (by simp [hqfo2]) (by simp [hqso2])
            (computeTail_fix htail)
      | some gv =>
          simp only [hh, hg] at h
          obtain ⟨sw, fo, so, hsw, hfo, hso, hqform⟩ := computeTail_eq_ok h
          have hqh : q.height = some hv := by rw [hqform]; exact hh
          have hqg : q.gsd = some gv := by rw [hqform]; exact hg
          have hqfo2 : q.forward_overlap = some fo := by rw [hqform]; exact hfo
          have hqso2 : q.side_overlap = some so := by rw [hqform]; exact hso
          exact compute_of_resolved hqh hqg (by simp [hqfo2]) (by simp [hqso2])
            (computeTail_fix h)

/-! ### Claims -/

/-- C1 (counterexample): on an already-computed plan (`computed1`, which
holds both `height` and `gsd`), setting `height` through the setter does
NOT change `photo_scale` or `swath`: the both-known branch of `compute` is
`pass`, so `photo_scale` stays at the value derived from the old height 1
instead of the value `2 / (1000 / 1000) = 2` consistent with the new
height 2. -/
theorem setHeight_keeps_stale_photo_scale :
    computed1.height = some 1 ∧ computed1.photo_scale = some 1 ∧
    (setHeight computed1 2).isOk = true ∧
    (setHeight computed1 2).state.height = some 2 ∧
    (setHeight computed1 2).state.photo_scale = some 1 ∧
    (setHeight computed1 2).state.photo_scale ≠ some ((2 : ℚ) / (1000 / 1000)) := by
  norm_num [computed1, cam1, setHeight, compute, fillOverlaps, computeTail, calculate_base,
    calculate_strip_offset, calculate_photo_area, PyResult.bind, PyResult.state,
    PyResult.isOk]

/-- C1 (amended): the `height` setter stores the new height and triggers
`compute()`, but on a plan where `gsd` is already present the both-known
branch skips every derivation: `photo_scale`, `swath` and `gsd` keep
their old values, and only `base_length`, `strip_offset` and
`ground_area` are recomputed — from the stale swath. -/
theorem setHeight_on_fully_known_plan (p : Planner) (h g fo so : ℚ) (sw : Vec2)
    (hg : p.gsd = some g) (hsw : p.swath = some sw)
    (hfo : p.forward_overlap = some fo) (hso : p.side_overlap = some so) :
    setHeight p h =
      .ok { p with height := some h,
                   base_length := some (sw.y * (1 - fo / 100)),
                   strip_offset := some (sw.x * (1 - so / 100)),
                   ground_area := some (sw.x * sw.y) } ∧
    (setHeight p h).state.photo_scale = p.photo_scale ∧
    (setHeight p h).state.swath = p.swath ∧
    (setHeight p h).state.gsd = some g := by
  have hmain : setHeight p h =
      .ok { p with height := some h,
                   base_length := some (sw.y * (1 - fo / 100)),
                   strip_offset := some (sw.x * (1 - so / 100)),
                   ground_area := some (sw.x * sw.y) } := by
    simp only [setHeight, compute]
    have hfill : fillOverlaps { p with height := some h } = { p with height := some h } :=
      fillOverlaps_eq_self (by simp [hfo]) (by simp [hso])
    rw [hfill]
    simp only [hg]
    simp only [computeTail, calculate_base, calculate_strip_offset, calculate_photo_area,
      hsw, hfo, hso, PyResult.bind_ok]
  refine ⟨hmain, ?_, ?_, ?_⟩ <;> rw [hmain]
  · rfl
  · rfl
  · simpa using hg

/-- C1 (witness): applying the amended theorem to the concrete computed
plan `computed1` and new height 2. -/
theorem setHeight_on_fully_known_plan_applied :
    (setHeight computed1 2).state.photo_scale = computed1.photo_scale ∧
    (setHeight computed1 2).state.gsd = some 200 :=
  ⟨(setHeight_on_fully_known_plan computed1 2 200 60 40 ⟨6, 8, true⟩ rfl rfl rfl rfl).2.1,
   (setHeight_on_fully_known_plan computed1 2 200 60 40 ⟨6, 8, true⟩ rfl rfl rfl rfl).2.2.2⟩

/-- C2: on a plan with neither `height` nor `gsd`, `compute()` does not
fall back to a height of 120: after filling the overlap defaults it calls
the non-existent method `gsd_from_height`, raising `AttributeError`, and
the plan's `height` (and `gsd`) remain unset. -/
theorem compute_neither_known_raises :
    compute plannerEmpty =
      .err .attributeError
        { plannerEmpty with forward_overlap := some 60, side_overlap := some 40 } ∧
    (compute plannerEmpty).state.height = none ∧
    (compute plannerEmpty).state.gsd = none := by
  norm_num [plannerEmpty, cam1, compute, fillOverlaps, PyResult.state]

/-- C3 (counterexample): with `max_fps = 1` stored, the proposed exposure
5 violates `exposure < 1/max_fps`, the setter prints the warning (flag
`true`) — and stores the bad exposure anyway. -/
theorem setExposure_stores_rejected_exposure :
    camFps.max_fps = some 1 ∧ ¬ ((5 : ℚ) < 1 / 1) ∧
    Camera.setExposure camFps 5 = .ok ({ camFps with exposure := some 5 }, true) := by
  norm_num [camFps, kwFps, Camera.setExposure]

/-- C3 (amended): if `max_fps` is unset the setter raises `TypeError`
(the non-short-circuiting `&` evaluates `1/None` before the bootstrap
branch can run); if `max_fps` is set and nonzero, the exposure is stored
whether or not it satisfies `exposure < 1/max_fps` — the violating case
merely prints a warning first. -/
theorem setExposure_behaviour (c : Camera) (e f : ℚ) :
    (c.max_fps = none → Camera.setExposure c e = .err .typeError (c, false)) ∧
    (c.max_fps = some f → f ≠ 0 → e < 1 / f →
      Camera.setExposure c e = .ok ({ c with exposure := some e }, false)) ∧
    (c.max_fps = some f → f ≠ 0 → ¬ e < 1 / f →
      Camera.setExposure c e = .ok ({ c with exposure := some e }, true)) := by
  refine ⟨fun h1 => ?_, fun h1 h2 h3 => ?_, fun h1 h2 h3 => ?_⟩
  · simp [Camera.setExposure, h1]
  · simp only [Camera.setExposure, h1, h2, if_false]
    rw [if_pos h3]
  · simp only [Camera.setExposure, h1, h2, if_false]
    rw [if_neg h3]

/-- C3 (witness): the amended theorem applied to `camFps` and the
violating exposure 7. -/
theorem setExposure_behaviour_applied :
    Camera.setExposure camFps 7 = .ok ({ camFps with exposure := some 7 }, true) :=
  (setExposure_behaviour camFps 7 1).2.2 rfl (by norm_num) (by norm_num)

/-- C4 (counterexample): on `plannerTupleSensor` (camera with a tuple
`sensor_size`, plan `height = 10`), `compute()` fails with `TypeError`
in `scale_from_height` — but `photo_scale` has already been stored (10),
so a failed computation does not leave every derived field in its prior
state. -/
theorem compute_failure_updates_photo_scale :
    plannerTupleSensor.photo_scale = none ∧
    (compute plannerTupleSensor).isOk = false ∧
    (compute plannerTupleSensor).state.photo_scale = some 10 := by
  norm_num [plannerTupleSensor, camTupleSensor, kwTupleSensor, compute, fillOverlaps,
    scale_from_height, PyResult.bind, PyResult.state, PyResult.isOk]

/-- C4 (amended): a computation that fails before any derivation store —
such as the neither-height-nor-gsd branch — leaves every derived field in
its prior state (only the overlap inputs are defaulted); a failure after
`scale_from_height` stores `photo_scale` (the counterexample) updates
that one field. -/
theorem compute_neither_known_preserves_derived (p : Planner)
    (hh : p.height = none) (hg : p.gsd = none) :
    (compute p).isOk = false ∧
    (compute p).state.photo_scale = p.photo_scale ∧
    (compute p).state.swath = p.swath ∧
    (compute p).state.base_length = p.base_length ∧
    (compute p).state.strip_offset = p.strip_offset ∧
    (compute p).state.ground_area = p.ground_area ∧
    (compute p).state.height = none ∧
    (compute p).state.gsd = none := by
  have h1 : (fillOverlaps p).height = none := (fillOverlaps_height p).trans hh
  have h2 : (fillOverlaps p).gsd = none := (fillOverlaps_gsd p).trans hg
  have hres : compute p = .err .attributeError (fillOverlaps p) := by
    simp only [compute, h1, h2]
  rw [hres]
  exact ⟨rfl, fillOverlaps_photo_scale p, fillOverlaps_swath p, fillOverlaps_base p,
    fillOverlaps_strip p, fillOverlaps_area p, h1, h2⟩

/-- C4 (witness): the amended theorem applied to the fresh plan
`plannerEmpty`. -/
theorem compute_neither_known_preserves_derived_applied :
    (compute plannerEmpty).isOk = false ∧
    (compute plannerEmpty).state.photo_scale = plannerEmpty.photo_scale ∧
    (compute plannerEmpty).state.swath = plannerEmpty.swath ∧
    (compute plannerEmpty).state.base_length = plannerEmpty.base_length ∧
    (compute plannerEmpty).state.strip_offset = plannerEmpty.strip_offset ∧
    (compute plannerEmpty).state.ground_area = plannerEmpty.ground_area ∧
    (compute plannerEmpty).state.height = none ∧
    (compute plannerEmpty).state.gsd = none :=
  compute_neither_known_preserves_derived plannerEmpty rfl rfl

/-- C5 (counterexample): for the camera `cam1` — positive focal length,
sensor size and image size, with `image_size` stored as a Python tuple as
in every constructor call in the repository — the round-trip pipeline
fails with `TypeError` inside `scale_from_gsd` (`float * tuple`) instead
of returning the original height. -/
theorem roundTrip_tuple_image_size_fails :
    cam1.f = some 1000 ∧ cam1.sensor_size = some ⟨6, 8, true⟩ ∧
    cam1.image_size = some ⟨3, 4, false⟩ ∧
    (roundTrip plannerEmpty 1).isOk = false ∧
    (roundTrip plannerEmpty 1).state.height = none := by
  norm_num [plannerEmpty, cam1, roundTrip, scale_from_height, calculate_gsd, scale_from_gsd,
    calculate_height, PyResult.bind, PyResult.state, PyResult.isOk]

/-- C5 (amended): when the camera's `image_size` is a numpy array (and
focal length, sensor size, image size are positive), the round trip
`scale_from_height`; `calculate_gsd`; `scale_from_gsd`;
`calculate_height` returns the original height exactly (over exact
rational arithmetic). -/
theorem roundTrip_returns_height_exactly (p : Planner) (h fq : ℚ) (sv iv : Vec2)
    (hf : p.cam.f = some fq) (hf0 : 0 < fq)
    (hs : p.cam.sensor_size = some sv) (hsnp : sv.np = true)
    (hsx : 0 < sv.x) (hsy : 0 < sv.y)
    (hi : p.cam.image_size = some iv) (hinp : iv.np = true)
    (hix : 0 < iv.x) (hiy : 0 < iv.y) (hh : 0 < h) :
    (roundTrip p h).isOk = true ∧ (roundTrip p h).state.height = some h := by
  have hf' : fq ≠ 0 := ne_of_gt hf0
  have hsx' : sv.x ≠ 0 := ne_of_gt hsx
  have hix' : iv.x ≠ 0 := ne_of_gt hix
  simp [roundTrip, scale_from_height, calculate_gsd, scale_from_gsd, calculate_height,
    hf, hs, hi, hsnp, hinp, hf', hsx', hix']
  field_simp
  ring

/-- C5 (witness): the amended theorem applied to the numpy-image camera
`camNpImage` and height 7. -/
theorem roundTrip_returns_height_exactly_applied :
    (roundTrip plannerNpImage 7).isOk = true ∧
    (roundTrip plannerNpImage 7).state.height = some 7 :=
  roundTrip_returns_height_exactly plannerNpImage 7 1000 ⟨6, 8, true⟩ ⟨3, 4, true⟩
    rfl (by norm_num) rfl rfl (by norm_num) (by norm_num) rfl rfl (by norm_num)
    (by norm_num) (by norm_num)

/-- C6: `compute()` is idempotent — if a call succeeds with resulting
state `q`, an immediate second call on `q` succeeds and leaves every
field (in particular all derived fields) identical. -/
theorem compute_twice_eq (p q : Planner) (h : compute p = .ok q) : compute q = .ok q :=
  compute_ok_fix h

/-- C6 (witness): idempotence at the concrete computed plan
`computed1`. -/
theorem compute_twice_eq_applied : compute computed1 = .ok computed1 :=
  compute_twice_eq plannerH1 computed1 compute_plannerH1

/-- C7 (counterexample): a zero focal length makes `scale_from_height`
raise the generic `ZeroDivisionError`, not the typed
`InvalidCameraParameterError` promised by the spec (no such class exists
in the code). -/
theorem scale_from_height_zero_focal_generic :
    plannerZeroF.cam.f = some 0 ∧
    scale_from_height plannerZeroF 5 = .err .zeroDivisionError plannerZeroF ∧
    PyErr.zeroDivisionError ≠ PyErr.invalidCameraParameterError := by
  refine ⟨rfl, ?_, by decide⟩
  norm_num [scale_from_height, plannerZeroF, camZeroF]

/-- C7 (amended): a zero focal length raises a generic
`ZeroDivisionError`; a missing focal length raises a generic `TypeError`;
a missing `sensor_size` raises a generic `TypeError` (in
`scale_from_height` only after `photo_scale` has been stored).  No typed
`InvalidCameraParameterError` is ever raised. -/
theorem scale_division_error_kinds (p : Planner) (h g fq : ℚ) :
    (p.cam.f = some 0 → scale_from_height p h = .err .zeroDivisionError p) ∧
    (p.cam.f = none → scale_from_height p h = .err .typeError p) ∧
    (p.cam.f = some fq → fq ≠ 0 → p.cam.sensor_size = none →
      scale_from_height p h = .err .typeError { p with photo_scale := some (h / (fq / 1000)) }) ∧
    (∀ iv : Vec2, p.cam.image_size = some iv → iv.np = true → p.cam.sensor_size = none →
      scale_from_gsd p g = .err .typeError p) := by
  refine ⟨fun h1 => ?_, fun h1 => ?_, fun h1 h2 h3 => ?_, fun iv h1 h2 h3 => ?_⟩
  · simp [scale_from_height, h1]
  · simp [scale_from_height, h1]
  · simp [scale_from_height, h1, h2, h3]
  · simp [scale_from_gsd, h1, h2, h3]

/-- C7 (witness): the amended theorem applied to the zero-focal-length
planner. -/
theorem scale_division_error_kinds_applied :
    scale_from_height plannerZeroF 7 = .err .zeroDivisionError plannerZeroF :=
  (scale_division_error_kinds plannerZeroF 7 0 1).1 rfl

/-- C8: whenever construction succeeds, a camera built without an
explicit `sensor_size` has `sensor_size = pixel_size * image_size`
elementwise, and every successfully constructed camera has a present
`sensor_size`. -/
theorem mkCamera_derives_sensor_size (kw c : Camera) (h : mkCamera kw = .ok c) :
    (kw.sensor_size = none →
      ∃ ps iv, kw.pixel_size = some ps ∧ kw.image_size = some iv ∧
        c.sensor_size = some ⟨ps * iv.x, ps * iv.y, true⟩) ∧
    c.sensor_size.isSome = true := by
  unfold mkCamera at h
  cases hs : kw.sensor_size with
  | some v =>
      simp only [hs] at h
      by_cases hv : v.np
      · simp only [hv, if_true] at h
        exact (PyResult.noConfusion h)
      · simp only [hv, if_false] at h
        injection h with hq
        subst hq
        refine ⟨fun h0 => absurd h0 (by simp [hs]), by simp [hs]⟩
  | none =>
      simp only [hs] at h
      cases hp : kw.pixel_size with
      | none => simp only [hp] at h; exact (PyResult.noConfusion h)
      | some ps =>
          simp only [hp] at h
          cases hi : kw.image_size with
          | none => simp only [hi] at h; exact (PyResult.noConfusion h)
          | some iv =>
              simp only [hi] at h
              injection h with hq
              subst hq
              exact ⟨fun _ => ⟨ps, iv, rfl, rfl, rfl⟩, rfl⟩

/-- C8 (witness): the theorem applied to the concrete kwargs `kw1`
(no explicit `sensor_size`) and the resulting camera `cam1`. -/
theorem mkCamera_derives_sensor_size_applied :
    kw1.sensor_size = none ∧ cam1.sensor_size.isSome = true :=
  ⟨rfl, (mkCamera_derives_sensor_size kw1 cam1 mkCamera_kw1).2⟩

/-- C9: `compute()` always leaves both overlaps present: a missing
`forward_overlap` is filled with 60 and a missing `side_overlap` with 40
(present values are kept), on every path through `compute`, including the
failing ones. -/
theorem compute_overlap_defaults (p : Planner) :
    (compute p).state.forward_overlap = some (p.forward_overlap.getD 60) ∧
    (compute p).state.side_overlap = some (p.side_overlap.getD 40) := by
  have hfo := fillOverlaps_fo p
  have hso := fillOverlaps_so p
  simp only [compute]
  cases hh : (fillOverlaps p).height with
  | none =>
      cases hg : (fillOverlaps p).gsd with
      | none =>
          simp only [hh, hg, PyResult.state_err]
          exact ⟨hfo, hso⟩
      | some gv =>
          simp only [hh, hg]
          have hc := preservesOverlaps_bind
            (preservesOverlaps_bind (scale_from_gsd_overlaps gv) (calculate_height_overlaps gv))
            computeTail_overlaps (fillOverlaps p)
          exact ⟨hc.1.trans hfo, hc.2.trans hso⟩
  | some hv =>
      cases hg : (fillOverlaps p).gsd with
      | none =>
          simp only [hh, hg]
          have hc := preservesOverlaps_bind
            (preservesOverlaps_bind (scale_from_height_overlaps hv) calculate_gsd_overlaps)
            computeTail_overlaps (fillOverlaps p)
          exact ⟨hc.1.trans hfo, hc.2.trans hso⟩
      | some gv =>
          simp only [hh, hg]
          have hc := computeTail_overlaps (fillOverlaps p)
          exact ⟨hc.1.trans hfo, hc.2.trans hso⟩

/-- C10: the public frame-rate setter (the property named `fps`, declared
as the setter of `max_fps`) stores its value under the key `'fps'`, so
the `max_fps` read by the exposure check is unchanged by the
assignment. -/
theorem setFps_leaves_max_fps (c : Camera) (v : ℚ) :
    (Camera.setFps c v).max_fps = c.max_fps ∧ (Camera.setFps c v).fps = some v := by
  exact ⟨rfl, rfl⟩

end FlightPlannerPy
